import Mathlib

/-!
Verification of `aten/src/ATen/core/TensorAccessor.h`.

Shallow embedding of the two accessor families:
* `TensorAccessor N` models `TensorAccessorBase`/`TensorAccessor<T,N>`: a raw
  data pointer plus *borrowed* pointers into externally owned size/stride
  arrays.
* `PackedTensorAccessor N` models `PackedTensorAccessorBase`/
  `PackedTensorAccessor<T,N>`: a raw data pointer plus size/stride arrays
  copied by value into the object at construction.

Pointers to the element buffer are modelled as integer addresses (element
offsets); the buffer itself is a function `Mem : Int → Int`.  A borrowed
`const int64_t*` into a size/stride array is modelled as `IntPtr`: the
backing array together with the current element offset, so that pointer
arithmetic `p + 1` is `off + 1` and pointer identity is equality of the
pair.  Dimensionality `N` is a type index; the C++ `N ≥ 2` primary template
is the case `N+2`, the `N = 1` specialization is the case `1`.
-/

/-- A borrowed `const int64_t*` into an externally owned array: the backing
array and the element offset the pointer currently points at. -/
structure IntPtr where
  arr : List Int
  off : Nat
  deriving DecidableEq, Repr

/-- Dereference `p[i]` (source: `sizes_[i]`, `strides_[i]`; no bounds check
in the source, out-of-range reads default to 0 in the model). -/
def IntPtr.read (p : IntPtr) (i : Nat) : Int :=
  p.arr.getD (p.off + i) 0

/-- Pointer arithmetic `p + 1` (source: `this->sizes_+1`, `this->strides_+1`). -/
def IntPtr.advance (p : IntPtr) : IntPtr :=
  ⟨p.arr, p.off + 1⟩

/-- The element buffer: a map from element addresses to stored values. -/
def Mem : Type := Int → Int

/-- Store `v` at address `a` (the effect of writing through a `T&`). -/
def writeMem (m : Mem) (a : Int) (v : Int) : Mem :=
  fun x => if x = a then v else m x

/-- `TensorAccessorBase<T,N>` / `TensorAccessor<T,N>`: data pointer plus
borrowed size/stride pointers (fields `data_`, `sizes_`, `strides_`). -/
structure TensorAccessor (N : Nat) where
  data_ : Int
  sizes_ : IntPtr
  strides_ : IntPtr
  deriving DecidableEq, Repr

/-- `TensorAccessorBase::size(i)`: `return sizes_[i];`. -/
def TensorAccessor.size {N : Nat} (A : TensorAccessor N) (i : Nat) : Int :=
  A.sizes_.read i

/-- `TensorAccessorBase::stride(i)`: `return strides_[i];`. -/
def TensorAccessor.stride {N : Nat} (A : TensorAccessor N) (i : Nat) : Int :=
  A.strides_.read i

/-- `TensorAccessorBase::data()`: `return data_;`. -/
def TensorAccessor.data {N : Nat} (A : TensorAccessor N) : Int :=
  A.data_

/-- `TensorAccessor<T,N>::operator[](i)` for the primary template (`N ≥ 2`):
`return TensorAccessor<T,N-1>(this->data_ + this->strides_[0]*i,
this->sizes_+1, this->strides_+1);`. -/
def TensorAccessor.sub {N : Nat} (A : TensorAccessor (N + 2)) (i : Int) :
    TensorAccessor (N + 1) :=
  ⟨A.data_ + A.strides_.read 0 * i, A.sizes_.advance, A.strides_.advance⟩

/-- `TensorAccessor<T,1>::operator[](i)` returns `this->data_[this->strides_[0]*i]`,
a reference to the element at this address. -/
def TensorAccessor.elemAddr (A : TensorAccessor 1) (i : Int) : Int :=
  A.data_ + A.strides_.read 0 * i

/-- Reading the element the terminal `operator[]` refers to. -/
def TensorAccessor.readElem (m : Mem) (A : TensorAccessor 1) (i : Int) : Int :=
  m (A.elemAddr i)

/-- Writing `v` through the reference returned by the terminal `operator[]`. -/
def TensorAccessor.writeElem (m : Mem) (A : TensorAccessor 1) (i : Int) (v : Int) : Mem :=
  writeMem m (A.elemAddr i) v

/-- `PackedTensorAccessorBase<T,N>`: data pointer plus size/stride arrays
embedded by value (fields `data_`, `sizes_[N]`, `strides_[N]`). -/
structure PackedTensorAccessor (N : Nat) where
  data_ : Int
  sizes_ : List Int
  strides_ : List Int
  deriving DecidableEq, Repr

/-- The `PackedTensorAccessorBase` constructor:
`std::copy(sizes_, sizes_ + N, std::begin(this->sizes_));` and the same for
strides — exactly the first `N` elements of each source array are copied
into the embedded storage. -/
def PackedTensorAccessor.ofPtrs (N : Nat) (d : Int) (sizes strides : IntPtr) :
    PackedTensorAccessor N :=
  ⟨d, (List.range N).map (fun k => sizes.read k),
      (List.range N).map (fun k => strides.read k)⟩

/-- `PackedTensorAccessorBase::size(i)`: `return sizes_[i];` (reads the
embedded copy). -/
def PackedTensorAccessor.size {N : Nat} (P : PackedTensorAccessor N) (i : Nat) : Int :=
  P.sizes_.getD i 0

/-- `PackedTensorAccessorBase::stride(i)`: `return strides_[i];`. -/
def PackedTensorAccessor.stride {N : Nat} (P : PackedTensorAccessor N) (i : Nat) : Int :=
  P.strides_.getD i 0

/-- `PackedTensorAccessor<T,N>::operator[](i)` for `N ≥ 2`: returns a
`TensorAccessor<T,N-1>` whose data is offset by `strides_[0]*i` and whose
size/stride pointers are `this->sizes_+1` / `this->strides_+1`, i.e. point
into this packed accessor's own embedded arrays at offset 1. -/
def PackedTensorAccessor.sub {N : Nat} (P : PackedTensorAccessor (N + 2)) (i : Int) :
    TensorAccessor (N + 1) :=
  ⟨P.data_ + P.strides_.getD 0 0 * i, ⟨P.sizes_, 1⟩, ⟨P.strides_, 1⟩⟩

/-- `PackedTensorAccessor<T,1>::operator[](i)`: reference to
`this->data_[this->strides_[0]*i]`. -/
def PackedTensorAccessor.elemAddr (P : PackedTensorAccessor 1) (i : Int) : Int :=
  P.data_ + P.strides_.getD 0 0 * i

/-- Writing `v` through the reference returned by the packed terminal
`operator[]`. -/
def PackedTensorAccessor.writeElem (m : Mem) (P : PackedTensorAccessor 1) (i : Int)
    (v : Int) : Mem :=
  writeMem m (P.elemAddr i) v

/-- The implicit copy constructor of `PackedTensorAccessorBase`: a field-wise
copy of the data pointer and the embedded arrays. -/
def PackedTensorAccessor.copy {N : Nat} (P : PackedTensorAccessor N) :
    PackedTensorAccessor N :=
  ⟨P.data_, P.sizes_, P.strides_⟩

/-- State-passing form of `TensorAccessor<T,N>::operator[]` (`N ≥ 2`): the
body performs no store to the buffer and no assignment to any field of
`*this`, so the translation returns the result together with the receiver
and the buffer it was given. -/
def TensorAccessor.subM {N : Nat} (m : Mem) (A : TensorAccessor (N + 2)) (i : Int) :
    TensorAccessor (N + 1) × TensorAccessor (N + 2) × Mem :=
  (A.sub i, A, m)

/-- State-passing form of `PackedTensorAccessor<T,N>::operator[]` (`N ≥ 2`):
the body performs no store and no field assignment. -/
def PackedTensorAccessor.subM {N : Nat} (m : Mem) (P : PackedTensorAccessor (N + 2))
    (i : Int) : TensorAccessor (N + 1) × PackedTensorAccessor (N + 2) × Mem :=
  (P.sub i, P, m)

/-- Fully chained indexing of a reference accessor: `A[i0][i1]...[iN]`,
reducing dimensionality by one per step until the terminal case yields an
element address. -/
def TensorAccessor.chain : {N : Nat} → TensorAccessor (N + 1) → (Fin (N + 1) → Int) → Int
  | 0, A, f => A.elemAddr (f 0)
  | _ + 1, A, f => (A.sub (f 0)).chain (fun k => f k.succ)

/-- Fully chained indexing starting from a packed accessor: the first step
crosses into the reference family (or is the packed terminal case). -/
def PackedTensorAccessor.chain :
    {N : Nat} → PackedTensorAccessor (N + 1) → (Fin (N + 1) → Int) → Int
  | 0, P, f => P.elemAddr (f 0)
  | _ + 1, P, f => (P.sub (f 0)).chain (fun k => f k.succ)

/-- Concrete 2-d scenario buffer from the spec: `[10,11,12,13,14,15]`. -/
def demoBuf : List Int := [10, 11, 12, 13, 14, 15]

/-- The buffer as a memory, based at address 0. -/
def demoMem : Mem := fun a => demoBuf.getD a.toNat 0

/-- 2-d reference accessor over `demoBuf` with sizes `[2,3]`, strides `[3,1]`. -/
def demoA : TensorAccessor 2 := ⟨0, ⟨[2, 3], 0⟩, ⟨[3, 1], 0⟩⟩

/-- Packed accessor built from the same sizes/strides. -/
def demoP : PackedTensorAccessor 2 :=
  PackedTensorAccessor.ofPtrs 2 0 ⟨[2, 3], 0⟩ ⟨[3, 1], 0⟩

-- Helper lemmas shared between claims.

/-- One indexing step on a reference accessor shifts strides by one. -/
theorem TensorAccessor.sub_stride {N : Nat} (A : TensorAccessor (N + 2)) (i : Int)
    (k : Nat) : (A.sub i).stride k = A.stride (k + 1) := by
  simp only [sub, stride, IntPtr.read, IntPtr.advance]
  congr 1
  omega

/-- One indexing step on a reference accessor shifts sizes by one. -/
theorem TensorAccessor.sub_size {N : Nat} (A : TensorAccessor (N + 2)) (i : Int)
    (k : Nat) : (A.sub i).size k = A.size (k + 1) := by
  simp only [sub, size, IntPtr.read, IntPtr.advance]
  congr 1
  omega

/-- One indexing step on a packed accessor shifts strides by one. -/
theorem PackedTensorAccessor.psub_stride {N : Nat} (P : PackedTensorAccessor (N + 2))
    (i : Int) (k : Nat) : (P.sub i).stride k = P.stride (k + 1) := by
  simp only [sub, stride, TensorAccessor.stride, IntPtr.read]
  congr 1
  omega

/-- One indexing step on a packed accessor shifts sizes by one. -/
theorem PackedTensorAccessor.psub_size {N : Nat} (P : PackedTensorAccessor (N + 2))
    (i : Int) (k : Nat) : (P.sub i).size k = P.size (k + 1) := by
  simp only [sub, size, TensorAccessor.size, IntPtr.read]
  congr 1
  omega

/-- The chained address of a reference accessor is the data pointer plus the
stride-weighted sum of the indices. -/
theorem TensorAccessor.chain_eq : ∀ {N : Nat} (A : TensorAccessor (N + 1))
    (f : Fin (N + 1) → Int),
    A.chain f = A.data_ + ∑ k : Fin (N + 1), A.stride k.val * f k
  | 0, A, f => by
    simp [chain, elemAddr, stride, Fin.sum_univ_one]
  | n + 1, A, f => by
    rw [chain, TensorAccessor.chain_eq]
    conv_rhs => rw [Fin.sum_univ_succ]
    simp only [TensorAccessor.sub_stride, Fin.val_succ, Fin.val_zero]
    show A.data_ + A.strides_.read 0 * f 0 + _ = _
    rw [add_assoc]
    rfl

/-- The chained address of a packed accessor is the data pointer plus the
stride-weighted sum of the indices. -/
theorem PackedTensorAccessor.pchain_eq : ∀ {N : Nat} (P : PackedTensorAccessor (N + 1))
    (f : Fin (N + 1) → Int),
    P.chain f = P.data_ + ∑ k : Fin (N + 1), P.stride k.val * f k
  | 0, P, f => by
    simp [chain, elemAddr, stride, Fin.sum_univ_one]
  | n + 1, P, f => by
    rw [chain, TensorAccessor.chain_eq]
    conv_rhs => rw [Fin.sum_univ_succ]
    simp only [PackedTensorAccessor.psub_stride, Fin.val_succ, Fin.val_zero]
    show P.data_ + P.strides_.getD 0 0 * f 0 + _ = _
    rw [add_assoc]
    rfl

-- Concrete values used by witnesses.

/-- 3-d reference accessor used as a witness input. -/
def demoA3 : TensorAccessor 3 := ⟨0, ⟨[2, 3, 4], 0⟩, ⟨[12, 4, 1], 0⟩⟩

/-- 3-d packed accessor used as a witness input. -/
def demoP3 : PackedTensorAccessor 3 :=
  PackedTensorAccessor.ofPtrs 3 0 ⟨[2, 3, 4], 0⟩ ⟨[12, 4, 1], 0⟩

/-- Same data and strides as `demoA`, different sizes. -/
def demoB : TensorAccessor 2 := ⟨0, ⟨[99, 7], 0⟩, ⟨[3, 1], 0⟩⟩

/-- Same data and strides as `demoP`, different sizes. -/
def demoQ : PackedTensorAccessor 2 := ⟨0, [99, 7], [3, 1]⟩

/-- Index sequence `[1, 2]`. -/
def demoIdx : Fin 2 → Int := fun k => if k.val = 0 then 1 else 2

-- Claim theorems.

/-- C1: for every reference accessor `A` of dimensionality `N ≥ 2` and every
index `i`, `A[i]` is a reference accessor of dimensionality `N-1` whose data
pointer is `A.data() + A.stride(0) * i` and whose sizes/strides pointers are
`A`'s pointers each advanced by one element. -/
theorem sub_is_shifted_view {N : Nat} (A : TensorAccessor (N + 2)) (i : Int) :
    (A.sub i).data = A.data + A.stride 0 * i ∧
    (A.sub i).sizes_ = A.sizes_.advance ∧
    (A.sub i).strides_ = A.strides_.advance :=
  ⟨rfl, rfl, rfl⟩

/-- C2: for every packed accessor `P` of dimensionality `N ≥ 2` and index `i`,
`P[i]` is a reference-family accessor whose data pointer is `P`'s offset by
`P.stride(0) * i` and whose sizes/strides pointers point into `P`'s own
embedded arrays at offset 1; concretely, for the packed accessor built with
sizes `[2,3]` and strides `[3,1]`, `P[0]` has `size(0) = 3`, `stride(0) = 1`
and an unchanged data pointer. -/
theorem packed_sub_is_reference_view {N : Nat} (P : PackedTensorAccessor (N + 2))
    (i : Int) :
    ((P.sub i).data = P.data_ + P.stride 0 * i ∧
     (P.sub i).sizes_ = ⟨P.sizes_, 1⟩ ∧
     (P.sub i).strides_ = ⟨P.strides_, 1⟩) ∧
    ((demoP.sub 0).size 0 = 3 ∧ (demoP.sub 0).stride 0 = 1 ∧
     (demoP.sub 0).data = demoP.data_) :=
  ⟨⟨rfl, rfl, rfl⟩, by decide⟩

/-- C3: for every 1-dimensional accessor (reference or packed) and index `i`,
`A[i]` is an element reference at address `A.data() + A.stride(0) * i`, and
writing `v` through it produces a buffer holding `v` at exactly that address
and the old contents everywhere else. -/
theorem terminal_subscript_addr (A : TensorAccessor 1) (P : PackedTensorAccessor 1)
    (i : Int) (m : Mem) (v : Int) (a : Int) :
    (A.elemAddr i = A.data + A.stride 0 * i ∧
     TensorAccessor.writeElem m A i v a =
       (if a = A.data + A.stride 0 * i then v else m a)) ∧
    (P.elemAddr i = P.data_ + P.stride 0 * i ∧
     PackedTensorAccessor.writeElem m P i v a =
       (if a = P.data_ + P.stride 0 * i then v else m a)) :=
  ⟨⟨rfl, rfl⟩, ⟨rfl, rfl⟩⟩

/-- C4: for every accessor of dimensionality `N ≥ 2` (reference or packed),
valid index `i`, and `k < N - 2` after renaming (here: dims are `N + 2`, so
`k < N`), the sub-accessor satisfies `A[i].size(k) = A.size(k+1)` and
`A[i].stride(k) = A.stride(k+1)`. -/
theorem sub_size_stride_shift {N : Nat} (A : TensorAccessor (N + 2))
    (P : PackedTensorAccessor (N + 2)) (i : Int) (k : Nat) (hk : k < N) :
    ((A.sub i).size k = A.size (k + 1) ∧ (A.sub i).stride k = A.stride (k + 1)) ∧
    ((P.sub i).size k = P.size (k + 1) ∧ (P.sub i).stride k = P.stride (k + 1)) :=
  ⟨⟨A.sub_size i k, A.sub_stride i k⟩, ⟨P.psub_size i k, P.psub_stride i k⟩⟩

/-- Witness for C4 at `N = 3`, `i = 1`, `k = 0`. -/
theorem sub_size_stride_shift_witness :
    ((demoA3.sub 1).size 0 = demoA3.size 1 ∧ (demoA3.sub 1).stride 0 = demoA3.stride 1) ∧
    ((demoP3.sub 1).size 0 = demoP3.size 1 ∧ (demoP3.sub 1).stride 0 = demoP3.stride 1) :=
  sub_size_stride_shift demoA3 demoP3 1 0 (by decide)

/-- C5: round-trip — building a packed accessor from a data pointer and
size/stride arrays of length `N`, then reading `size(k)`/`stride(k)` for any
`k < N`, reproduces exactly the values in the source arrays. -/
theorem packed_roundtrip {N : Nat} (d : Int) (s t : IntPtr) (k : Nat) (hk : k < N) :
    (PackedTensorAccessor.ofPtrs N d s t).size k = s.read k ∧
    (PackedTensorAccessor.ofPtrs N d s t).stride k = t.read k := by
  constructor <;>
    simp [PackedTensorAccessor.ofPtrs, PackedTensorAccessor.size,
      PackedTensorAccessor.stride, List.getD_eq_getElem?_getD, hk]

/-- Witness for C5 at `N = 2`, `k = 1`. -/
theorem packed_roundtrip_witness :
    (PackedTensorAccessor.ofPtrs 2 0 ⟨[2, 3], 0⟩ ⟨[3, 1], 0⟩).size 1 =
      IntPtr.read ⟨[2, 3], 0⟩ 1 ∧
    (PackedTensorAccessor.ofPtrs 2 0 ⟨[2, 3], 0⟩ ⟨[3, 1], 0⟩).stride 1 =
      IntPtr.read ⟨[3, 1], 0⟩ 1 :=
  packed_roundtrip 0 ⟨[2, 3], 0⟩ ⟨[3, 1], 0⟩ 1 (by decide)

/-- C6: a by-value copy of a packed accessor has identical scalar attributes,
and the packed accessor's value depends only on the values captured at
construction: two constructions from sources agreeing on the first `N`
elements yield equal packed accessors. -/
theorem packed_copy_self_contained {N : Nat} (P : PackedTensorAccessor N) (k : Nat)
    (d : Int) (s1 t1 s2 t2 : IntPtr)
    (hs : ∀ j, j < N → s1.read j = s2.read j)
    (ht : ∀ j, j < N → t1.read j = t2.read j) :
    (P.copy.size k = P.size k ∧ P.copy.stride k = P.stride k ∧
     P.copy.data_ = P.data_) ∧
    PackedTensorAccessor.ofPtrs N d s1 t1 = PackedTensorAccessor.ofPtrs N d s2 t2 := by
  refine ⟨⟨rfl, rfl, rfl⟩, ?_⟩
  unfold PackedTensorAccessor.ofPtrs
  congr 1
  · exact List.map_congr_left fun j hj => hs j (List.mem_range.mp hj)
  · exact List.map_congr_left fun j hj => ht j (List.mem_range.mp hj)

/-- Witness for C6: sources that agree on their first two elements but differ
afterwards produce the same packed accessor. -/
theorem packed_copy_self_contained_witness :
    (demoP.copy.size 0 = demoP.size 0 ∧ demoP.copy.stride 0 = demoP.stride 0 ∧
     demoP.copy.data_ = demoP.data_) ∧
    PackedTensorAccessor.ofPtrs 2 0 ⟨[2, 3], 0⟩ ⟨[3, 1], 0⟩ =
      PackedTensorAccessor.ofPtrs 2 0 ⟨[2, 3, 99], 0⟩ ⟨[3, 1, 7], 0⟩ :=
  packed_copy_self_contained demoP 0 0 ⟨[2, 3], 0⟩ ⟨[3, 1], 0⟩ ⟨[2, 3, 99], 0⟩
    ⟨[3, 1, 7], 0⟩ (by decide) (by decide)

/-- C7: indexing is a pure function of `(this, i)`: the state-passing form of
`operator[]` returns the receiver with every field unchanged and the buffer
unchanged, and its result is the new accessor value. -/
theorem subscript_pure {N : Nat} (m : Mem) (A : TensorAccessor (N + 2))
    (P : PackedTensorAccessor (N + 2)) (i : Int) :
    ((TensorAccessor.subM m A i).2.1 = A ∧ (TensorAccessor.subM m A i).2.2 = m ∧
     (TensorAccessor.subM m A i).1 = A.sub i) ∧
    ((PackedTensorAccessor.subM m P i).2.1 = P ∧
     (PackedTensorAccessor.subM m P i).2.2 = m ∧
     (PackedTensorAccessor.subM m P i).1 = P.sub i) :=
  ⟨⟨rfl, rfl, rfl⟩, ⟨rfl, rfl, rfl⟩⟩

/-- C8: over the buffer `[10,11,12,13,14,15]` with sizes `[2,3]` and strides
`[3,1]`, `A[1][2]` resolves to the address `data + 1*3 + 2*1 = 5`, whose
element is `15`. -/
theorem demo_chain_resolves :
    (demoA.sub 1).elemAddr 2 = demoA.data + 1 * 3 + 2 * 1 ∧
    (demoA.sub 1).elemAddr 2 = 5 ∧
    TensorAccessor.readElem demoMem (demoA.sub 1) 2 = 15 ∧
    demoBuf.getD 5 0 = 15 := by
  decide

/-- C9: generalized address formula — fully chained indexing of an
`N`-dimensional accessor (reference, or packed followed by reference
sub-accessors) with indices `i_0, …, i_{N-1}` resolves to the offset
`∑ k, stride(k) * i_k` from the data pointer. -/
theorem chain_addr_formula :
    (∀ (N : Nat) (A : TensorAccessor (N + 1)) (f : Fin (N + 1) → Int),
       A.chain f = A.data + ∑ k : Fin (N + 1), A.stride k.val * f k) ∧
    (∀ (N : Nat) (P : PackedTensorAccessor (N + 1)) (f : Fin (N + 1) → Int),
       P.chain f = P.data_ + ∑ k : Fin (N + 1), P.stride k.val * f k) :=
  ⟨fun _ A f => A.chain_eq f, fun _ P f => P.pchain_eq f⟩

/-- C10: sizes never influence addressing — two accessors (of either family)
with the same data pointer and the same strides but arbitrary sizes resolve
every chain of indexing operations to the same element address. -/
theorem sizes_noninterference :
    (∀ (N : Nat) (A B : TensorAccessor (N + 1)) (f : Fin (N + 1) → Int),
       A.data_ = B.data_ → A.strides_ = B.strides_ → A.chain f = B.chain f) ∧
    (∀ (N : Nat) (P Q : PackedTensorAccessor (N + 1)) (f : Fin (N + 1) → Int),
       P.data_ = Q.data_ → P.strides_ = Q.strides_ → P.chain f = Q.chain f) := by
  constructor
  · intro N A B f hd hs
    rw [A.chain_eq, B.chain_eq, hd]
    congr 1
    exact Finset.sum_congr rfl fun k _ => by
      simp [TensorAccessor.stride, hs]
  · intro N P Q f hd hs
    rw [P.pchain_eq, Q.pchain_eq, hd]
    congr 1
    exact Finset.sum_congr rfl fun k _ => by
      simp [PackedTensorAccessor.stride, hs]

/-- Witness for C10: accessors with sizes `[2,3]` and `[99,7]` but identical
data pointer and strides give the same chained address at indices `[1,2]`. -/
theorem sizes_noninterference_witness :
    demoA.chain demoIdx = demoB.chain demoIdx ∧
    demoP.chain demoIdx = demoQ.chain demoIdx :=
  ⟨sizes_noninterference.1 1 demoA demoB demoIdx rfl rfl,
   sizes_noninterference.2 1 demoP demoQ demoIdx rfl rfl⟩
